import Mathlib

/-!
Verification development for the Git-Wiz console release tool.

The definitions below are a shallow embedding of the Rust sources:
  - `src/release.rs`   (semver bumping, release planning, release pipeline)
  - `src/git.rs`       (diff retrieval)
  - `src/tui/tasks.rs` (single-flight background task runner)
  - `src/tui/app.rs`   (application state, modal handling, tab/action navigation)
  - `src/tui/input.rs` (key dispatch / diff scrolling)
  - `src/tui/view.rs`  (diff viewer scroll clamping)

External I/O (git subprocesses, the filesystem, network generators) is modelled
by environment records whose fields give each call's outcome; the Rust control
flow around those calls is translated faithfully.  Machine integers (`u64`,
`usize`) are modelled as `Nat` with explicit `% 2^64` / saturation where the
Rust arithmetic can overflow or saturate.
-/

namespace GitWiz

/-! ### Basic machine-integer and string helpers -/

/-- Modulus of Rust `u64`. -/
def U64_MOD : Nat := 2 ^ 64

/-- Maximum value of Rust `usize` (64-bit target). -/
def USIZE_MAX : Nat := 2 ^ 64 - 1

/-- Rust `usize::saturating_add`. -/
def usize_saturating_add (a b : Nat) : Nat := min (a + b) USIZE_MAX

/-- Rust `str::split(sep)` on a character separator, over a character list. -/
def splitCharList (sep : Char) : List Char → List (List Char)
  | [] => [[]]
  | c :: cs =>
    match splitCharList sep cs with
    | [] => if c = sep then [[], []] else [[c]]
    | r :: rs => if c = sep then [] :: r :: rs else (c :: r) :: rs

/-- Rust `str::split(sep)` on a character separator. -/
def splitChar (sep : Char) (s : String) : List String :=
  (splitCharList sep s.toList).map String.mk

/-- Rust `str::trim`: strip leading and trailing whitespace. -/
def rust_trim (s : String) : String :=
  String.mk (((s.toList.dropWhile Char.isWhitespace).reverse.dropWhile
    Char.isWhitespace).reverse)

/-- Rust `str::parse::<u64>`: an optional leading plus sign followed by at
least one ASCII digit, with the value required to fit in a `u64`. -/
def parse_u64 (s : String) : Option Nat :=
  let t := match s.toList with
    | '+' :: rest => rest
    | cs => cs
  if t.isEmpty then none
  else if t.all Char.isDigit then
    let v := t.foldl (fun a c => a * 10 + (c.toNat - 48)) 0
    if v < U64_MOD then some v else none
  else none

/-- Rust `str::lines()`: split on a newline, dropping a final empty segment
produced by a trailing newline, and stripping a trailing carriage return from
each line. -/
def rust_lines (s : String) : List String :=
  if s.toList = [] then []
  else
    let parts := splitCharList '\n' s.toList
    let parts := if s.toList.getLast? = some '\n' then parts.dropLast else parts
    parts.map (fun l =>
      String.mk (match l.getLast? with
        | some c => if c = '\r' then l.dropLast else l
        | Option.none => l))

/-- Rust `char::is_control` (Unicode Cc category). -/
def rust_is_control (c : Char) : Bool :=
  c.toNat ≤ 0x1F || (0x7F ≤ c.toNat && c.toNat ≤ 0x9F)

/-! ### Semver bumping and release planning (`src/release.rs`) -/

/-- `BumpKind` from `src/release.rs`. -/
inductive BumpKind where
  | Patch
  | Minor
  | Major
deriving DecidableEq, Repr

/-- `PreflightConfig` from `src/release.rs`. -/
structure PreflightConfig where
  fmt_check : Bool
  clippy_deny_warnings : Bool
  test_locked : Bool
deriving DecidableEq, Repr

/-- `PreflightConfig::default()`: all checks enabled. -/
def PreflightConfig.default : PreflightConfig :=
  { fmt_check := true, clippy_deny_warnings := true, test_locked := true }

/-- `ReleasePlan` from `src/release.rs`. -/
structure ReleasePlan where
  old_version : String
  new_version : String
  tag : String
deriving DecidableEq, Repr

/-- `ReleaseGuardrailConfig` from `src/release.rs`. -/
structure ReleaseGuardrailConfig where
  remote : String
  expected_branch : Option String
deriving DecidableEq, Repr

/-- `ReleaseGuardrailConfig::default()`. -/
def ReleaseGuardrailConfig.default : ReleaseGuardrailConfig :=
  { remote := "origin", expected_branch := some "master" }

/-- The per-part loop body of `validate_semver_3`: each dot-separated part
must be non-empty and parse as a `u64`. -/
def validate_parts : List String → Except String Unit
  | [] => .ok ()
  | p :: rest =>
    if p.isEmpty then .error "version part is empty"
    else
      match parse_u64 p with
      | some _ => validate_parts rest
      | none => .error s!"version part {p} is not numeric"

/-- `validate_semver_3` from `src/release.rs`: exactly three dot-separated,
non-empty, numeric components. -/
def validate_semver_3 (v : String) : Except String Unit :=
  let parts := splitChar '.' v
  if parts.length = 3 then validate_parts parts
  else .error s!"expected x.y.z, got {v}"

/-- `bump_semver` from `src/release.rs`.  The three components are parsed with
`parse().unwrap_or(0)` after validation; the incremented component is a `u64`,
hence the `% 2 ^ 64`. -/
def bump_semver (current : String) (bump : BumpKind) : Except String String :=
  match validate_semver_3 current with
  | .error e => .error e
  | .ok _ =>
    let parts := splitChar '.' current
    let major := (parse_u64 (parts.getD 0 "")).getD 0
    let minor := (parse_u64 (parts.getD 1 "")).getD 0
    let patch := (parse_u64 (parts.getD 2 "")).getD 0
    match bump with
    | .Patch => .ok s!"{major}.{minor}.{(patch + 1) % U64_MOD}"
    | .Minor => .ok s!"{major}.{(minor + 1) % U64_MOD}.0"
    | .Major => .ok s!"{(major + 1) % U64_MOD}.0.0"

/-- `plan_custom` from `src/release.rs`.  The Rust function reads the current
version out of `Cargo.toml`; here the successfully-read current version is the
`old_version` argument. -/
def plan_custom (old_version : String) (new_version : String) : Except String ReleasePlan :=
  let nv := rust_trim new_version
  if nv.isEmpty then .error "New version cannot be empty."
  else
    match validate_semver_3 nv with
    | .error e => .error s!"Invalid custom version: {e}"
    | .ok _ =>
      if old_version = nv then .error s!"New version matches current version: {nv}"
      else .ok { old_version := old_version, new_version := nv, tag := "v" ++ nv }

/-- `plan_bump` from `src/release.rs`, with the version read from `Cargo.toml`
passed as `old_version`. -/
def plan_bump (old_version : String) (bump : BumpKind) : Except String ReleasePlan :=
  match bump_semver old_version bump with
  | .error e => .error e
  | .ok nv => .ok { old_version := old_version, new_version := nv, tag := "v" ++ nv }

/-! ### Diff retrieval (`src/git.rs`)

Each `git diff` subprocess call is modelled by its outcome in `DiffCmdEnv`:
whether the command ran and exited successfully, and its stdout (already
decoded; the UTF-8 decoding failure path is folded into the success flag). -/

/-- `DiffSource` from `src/git.rs`. -/
inductive DiffSource where
  | Staged
  | Unstaged
  | Both
deriving DecidableEq, Repr

/-- Outcomes of the external calls made by the diff helpers in `src/git.rs`. -/
structure DiffCmdEnv where
  isRepo : Bool
  stagedOk : Bool
  stagedOut : String
  unstagedOk : Bool
  unstagedOut : String
deriving DecidableEq, Repr

/-- `ensure_repo` from `src/git.rs`. -/
def ensure_repo (env : DiffCmdEnv) : Except String Unit :=
  if env.isRepo then .ok () else .error "Not a git repository (or git is not installed)."

/-- `get_diff_staged_allow_empty` from `src/git.rs`. -/
def get_diff_staged_allow_empty (env : DiffCmdEnv) : Except String String :=
  match ensure_repo env with
  | .error e => .error e
  | .ok _ =>
    if env.stagedOk then .ok env.stagedOut
    else .error "git diff --cached failed"

/-- `get_diff_unstaged_allow_empty` from `src/git.rs`. -/
def get_diff_unstaged_allow_empty (env : DiffCmdEnv) : Except String String :=
  match ensure_repo env with
  | .error e => .error e
  | .ok _ =>
    if env.unstagedOk then .ok env.unstagedOut
    else .error "git diff failed"

/-- `get_diff_allow_empty` from `src/git.rs`.  In the `Both` arm the
`(true, true)` case of the Rust `match` is unreachable (it is guarded by the
early return); the model returns the empty string there. -/
def get_diff_allow_empty (env : DiffCmdEnv) (source : DiffSource) : Except String String :=
  match ensure_repo env with
  | .error e => .error e
  | .ok _ =>
    match source with
    | .Staged => get_diff_staged_allow_empty env
    | .Unstaged => get_diff_unstaged_allow_empty env
    | .Both =>
      match get_diff_staged_allow_empty env with
      | .error e => .error e
      | .ok staged =>
        match get_diff_unstaged_allow_empty env with
        | .error e => .error e
        | .ok unstaged =>
          if (rust_trim staged).isEmpty && (rust_trim unstaged).isEmpty then .ok ""
          else
            match (rust_trim staged).isEmpty, (rust_trim unstaged).isEmpty with
            | false, true => .ok staged
            | true, false => .ok unstaged
            | false, false =>
              .ok ("--- STAGED ---\n" ++ staged ++ "\n\n--- UNSTAGED ---\n" ++ unstaged)
            | true, true => .ok ""

/-! ### Release pipeline (`src/release.rs`)

The pipeline's external calls are modelled by `ReleaseEnv`; the observable
actions it performs (preflight command executions, file mutations, git
mutations, tag-collision queries) are recorded in an effect trace so that
ordering properties can be stated. -/

/-- Observable actions of the release pipeline. -/
inductive Eff where
  | preflightCmd (cmd : String)
  | writeCargoToml
  | generateLockfile
  | gitAddAll
  | gitCommit
  | queryTagLocal
  | queryTagRemote
  | gitCreateTag (tag : String)
  | gitPushTag (remote : String) (tag : String)
deriving DecidableEq, Repr

/-- Outcomes of the external calls made by `run_tag_release` and its helpers.
Each `ok` field means the corresponding subprocess ran and exited
successfully. -/
structure ReleaseEnv where
  isRepo : Bool
  remoteUrlOk : Bool
  statusOk : Bool
  statusStdout : String
  branchOk : Bool
  branchStdout : String
  fmtOk : Bool
  clippyOk : Bool
  testOk : Bool
  tomlUpdateOk : Bool
  addOk : Bool
  commitOk : Bool
  tagListOk : Bool
  tagListStdout : String
  lsRemoteOk : Bool
  lsRemoteStdout : String
  tagCreateOk : Bool
  pushTagOk : Bool
deriving DecidableEq, Repr

/-- Sequencing of effect-producing pipeline steps: on error the remaining
steps do not run and contribute no effects. -/
def effBind {α β : Type} (a : Except String α × List Eff)
    (b : α → Except String β × List Eff) : Except String β × List Eff :=
  match a with
  | (.ok x, t) => let r := b x; (r.1, t ++ r.2)
  | (.error e, t) => (.error e, t)

/-- `ensure_git_repo` from `src/release.rs`. -/
def ensure_git_repo (env : ReleaseEnv) : Except String Unit :=
  if env.isRepo then .ok () else .error "Not a git repository (or git is not installed)."

/-- `ensure_remote_exists` from `src/release.rs`. -/
def ensure_remote_exists (env : ReleaseEnv) (remote : String) : Except String Unit :=
  let remote := rust_trim remote
  if remote.isEmpty then .error "Remote cannot be empty."
  else if env.remoteUrlOk then .ok ()
  else .error s!"No {remote} remote found. Add it first."

/-- `ensure_clean_working_tree` from `src/release.rs`: `git status --porcelain`
must succeed and print nothing. -/
def ensure_clean_working_tree (env : ReleaseEnv) : Except String Unit :=
  if env.statusOk = false then .error "git status failed"
  else if env.statusStdout.isEmpty then .ok ()
  else .error "Working tree is not clean. Commit or stash your changes before releasing."

/-- `current_branch` from `src/release.rs`. -/
def current_branch (env : ReleaseEnv) : Except String String :=
  if env.branchOk then .ok (rust_trim env.branchStdout)
  else .error "git rev-parse failed"

/-- `assert_release_guardrails` from `src/release.rs`.  Pure queries only: it
contributes no effects to the pipeline trace. -/
def assert_release_guardrails (env : ReleaseEnv) (cfg : ReleaseGuardrailConfig) :
    Except String Unit :=
  match ensure_git_repo env with
  | .error e => .error e
  | .ok _ =>
    match ensure_remote_exists env cfg.remote with
    | .error e => .error e
    | .ok _ =>
      match ensure_clean_working_tree env with
      | .error e => .error e
      | .ok _ =>
        match cfg.expected_branch with
        | none => .ok ()
        | some expected =>
          match current_branch env with
          | .error e => .error e
          | .ok branch =>
            if branch ≠ expected then
              .error s!"Refusing to release: current branch is {branch} (expected {expected})."
            else .ok ()

/-- One `run_cmd_inherit` preflight step: when enabled the command is executed
(an effect) and its exit status decides success. -/
def preflight_step (enabled : Bool) (ok : Bool) (cmd : String) (msg : String) :
    Except String Unit × List Eff :=
  if enabled then ((if ok then .ok () else .error msg), [Eff.preflightCmd cmd])
  else (.ok (), [])

/-- `run_preflight` from `src/release.rs`. -/
def run_preflight (env : ReleaseEnv) (cfg : PreflightConfig) :
    Except String Unit × List Eff :=
  effBind (preflight_step cfg.fmt_check env.fmtOk "cargo fmt --check"
      "Release preflight failed: cargo fmt --check") fun _ =>
  effBind (preflight_step cfg.clippy_deny_warnings env.clippyOk "cargo clippy -- -D warnings"
      "Release preflight failed: cargo clippy -- -D warnings") fun _ =>
  preflight_step cfg.test_locked env.testOk "cargo test --locked"
      "Release preflight failed: cargo test --locked"

/-- `apply_version_bump` from `src/release.rs`: rewrite the version in
`Cargo.toml` (no write happens if the version line is not found), then run
`cargo generate-lockfile` ignoring its result. -/
def apply_version_bump (env : ReleaseEnv) : Except String Unit × List Eff :=
  if env.tomlUpdateOk then (.ok (), [Eff.writeCargoToml, Eff.generateLockfile])
  else (.error "Failed to update version in Cargo.toml", [])

/-- `stage_all` from `src/release.rs`. -/
def stage_all (env : ReleaseEnv) : Except String Unit × List Eff :=
  match ensure_git_repo env with
  | .error e => (.error e, [])
  | .ok _ => ((if env.addOk then .ok () else .error "git add -A failed"), [Eff.gitAddAll])

/-- `commit_with_message` from `src/release.rs` (which delegates to
`git::commit_changes`). -/
def commit_with_message (env : ReleaseEnv) (message : String) :
    Except String Unit × List Eff :=
  let _ := message
  match ensure_git_repo env with
  | .error e => (.error e, [])
  | .ok _ => ((if env.commitOk then .ok () else .error "git commit failed"), [Eff.gitCommit])

/-- `tag_exists_local` from `src/release.rs`: an empty (trimmed) tag reports
`false` without running git. -/
def tag_exists_local (env : ReleaseEnv) (tag : String) : Except String Bool × List Eff :=
  match ensure_git_repo env with
  | .error e => (.error e, [])
  | .ok _ =>
    let tag := rust_trim tag
    if tag.isEmpty then (.ok false, [])
    else if env.tagListOk then ((.ok (!(rust_trim env.tagListStdout).isEmpty)), [Eff.queryTagLocal])
    else (.error "git tag --list failed", [Eff.queryTagLocal])

/-- `tag_exists_remote` from `src/release.rs`: an empty (trimmed) remote or
tag reports `false` without running git. -/
def tag_exists_remote (env : ReleaseEnv) (remote : String) (tag : String) :
    Except String Bool × List Eff :=
  match ensure_git_repo env with
  | .error e => (.error e, [])
  | .ok _ =>
    let remote := rust_trim remote
    let tag := rust_trim tag
    if remote.isEmpty || tag.isEmpty then (.ok false, [])
    else if env.lsRemoteOk then ((.ok (!(rust_trim env.lsRemoteStdout).isEmpty)), [Eff.queryTagRemote])
    else (.error "git ls-remote failed", [Eff.queryTagRemote])

/-- `create_annotated_tag` from `src/release.rs`. -/
def create_annotated_tag (env : ReleaseEnv) (tag : String) : Except String Unit × List Eff :=
  match ensure_git_repo env with
  | .error e => (.error e, [])
  | .ok _ =>
    let tag := rust_trim tag
    if tag.isEmpty then (.error "Tag cannot be empty.", [])
    else ((if env.tagCreateOk then .ok () else .error s!"git tag -a {tag} failed"),
      [Eff.gitCreateTag tag])

/-- `push_tag` from `src/release.rs`. -/
def push_tag (env : ReleaseEnv) (remote : String) (tag : String) :
    Except String Unit × List Eff :=
  match ensure_git_repo env with
  | .error e => (.error e, [])
  | .ok _ =>
    let remote := rust_trim remote
    let tag := rust_trim tag
    if remote.isEmpty then (.error "Remote cannot be empty.", [])
    else if tag.isEmpty then (.error "Tag cannot be empty.", [])
    else ((if env.pushTagOk then .ok () else .error s!"git push {remote} {tag} failed"),
      [Eff.gitPushTag remote tag])

/-- `run_tag_release` from `src/release.rs`: guardrails, preflight, version
bump, stage + commit, tag-collision checks, tag + push. -/
def run_tag_release (env : ReleaseEnv) (plan : ReleasePlan) (commit_message : String)
    (preflight : PreflightConfig) (guards : ReleaseGuardrailConfig) :
    Except String Unit × List Eff :=
  effBind ((assert_release_guardrails env guards), []) fun _ =>
  effBind (run_preflight env preflight) fun _ =>
  effBind (apply_version_bump env) fun _ =>
  effBind (stage_all env) fun _ =>
  effBind (commit_with_message env commit_message) fun _ =>
  effBind (tag_exists_local env plan.tag) fun existsLocal =>
  if existsLocal then (.error s!"Tag already exists locally: {plan.tag}", [])
  else
    effBind (tag_exists_remote env guards.remote plan.tag) fun existsRemote =>
    if existsRemote then
      (.error s!"Tag already exists on remote {guards.remote}: {plan.tag}", [])
    else
      effBind (create_annotated_tag env plan.tag) fun _ =>
      push_tag env guards.remote plan.tag

/-! ### Application state (`src/tui/app.rs`)

The `ratatui` text area is modelled as its list of lines; the terminal
rendering side is out of scope.  External calls made by the purpose handlers
(config file removal, the release pipeline's subprocesses, generator calls,
task-runner busyness) are modelled by a `HandlerEnv`. -/

/-- `ModalKind` from `src/tui/app.rs`. -/
inductive ModalKind where
  | None
  | Confirm
  | TextInput
deriving DecidableEq, Repr

/-- `ConfirmPurpose` from `src/tui/app.rs`. -/
inductive ConfirmPurpose where
  | ClearConfig
  | PushAllTags
  | ReleaseTrigger
deriving DecidableEq, Repr

/-- `TextInputPurpose` from `src/tui/app.rs`. -/
inductive TextInputPurpose where
  | PushSpecificTag
  | ReleaseCustomVersion
deriving DecidableEq, Repr

/-- `ModalState` from `src/tui/app.rs`. -/
structure ModalState where
  kind : ModalKind
  title : String
  message : String
  confirm_purpose : Option ConfirmPurpose
  input_purpose : Option TextInputPurpose
  input_value : String
deriving DecidableEq, Repr

/-- `ModalState::none()`. -/
def ModalState.none : ModalState :=
  { kind := ModalKind.None, title := "", message := "",
    confirm_purpose := Option.none, input_purpose := Option.none, input_value := "" }

/-- `DiffViewSource` from `src/tui/app.rs`. -/
inductive DiffViewSource where
  | Staged
  | Unstaged
  | Both
deriving DecidableEq, Repr

/-- `DiffViewSource::label`. -/
def DiffViewSource.label : DiffViewSource → String
  | .Staged => "Staged"
  | .Unstaged => "Unstaged"
  | .Both => "Both"

/-- `ActionItem` from `src/tui/app.rs`. -/
inductive ActionItem where
  | GenerateFromStaged
  | Commit
  | ClearMessage
  | StagePatch
  | StageAll
  | UnstagePatch
  | UnstageAll
  | ViewStaged
  | ViewUnstaged
  | ViewBoth
  | PushBranch
  | PushSpecificTag
  | PushAllTags
  | ReleasePatch
  | ReleaseMinor
  | ReleaseMajor
  | ReleaseCustom
  | RunSetupWizard
  | ReloadConfig
  | ClearConfig
deriving DecidableEq, Repr

/-- `Tab` from `src/tui/app.rs`. -/
inductive Tab where
  | Generate
  | Stage
  | Diff
  | Push
  | Release
  | Config
deriving DecidableEq, Repr

/-- `Tab::ALL`. -/
def Tab.ALL : List Tab :=
  [Tab.Generate, Tab.Stage, Tab.Diff, Tab.Push, Tab.Release, Tab.Config]

/-- `Tab::title`. -/
def Tab.title : Tab → String
  | .Generate => "Generate"
  | .Stage => "Stage"
  | .Diff => "Diff"
  | .Push => "Push"
  | .Release => "Release"
  | .Config => "Config"

/-- `Focus` from `src/tui/app.rs`. -/
inductive Focus where
  | TabBar
  | CommitEditor
  | LeftPane
  | RightPane
deriving DecidableEq, Repr

/-- `StatusLevel` from `src/tui/app.rs`. -/
inductive StatusLevel where
  | Info
  | Success
  | Error
deriving DecidableEq, Repr

/-- `StatusLine` from `src/tui/app.rs`. -/
structure StatusLine where
  level : StatusLevel
  message : String
deriving DecidableEq, Repr

/-- `App` from `src/tui/app.rs` (UI-state fields; the commit editor is its
list of lines, the running-task render snapshot is omitted). -/
structure App where
  active_tab : Tab
  focus : Focus
  show_help : Bool
  modal : ModalState
  action_index : Nat
  diff_source_label : String
  diff_summary : String
  provider_label : String
  model_label : String
  mock_mode : Bool
  diff_view_source : DiffViewSource
  diff_scroll : Nat
  diff_text : String
  pending_release_version : Option String
  commit_editor : List String
  status : Option StatusLine
  logs : List String
  should_quit : Bool
deriving DecidableEq, Repr

/-- `App::new()`. -/
def App.new : App :=
  { active_tab := Tab.Generate
    focus := Focus.CommitEditor
    show_help := true
    modal := ModalState.none
    action_index := 0
    diff_source_label := "Staged (recommended)"
    diff_summary := "No diff loaded"
    provider_label := "Not configured"
    model_label := "-"
    mock_mode := false
    diff_view_source := DiffViewSource.Staged
    diff_scroll := 0
    diff_text := ""
    pending_release_version := Option.none
    commit_editor := []
    status := some ⟨StatusLevel.Info,
      "Press ? for help. g=generate, Enter=commit, c=clear. Esc quits."⟩
    logs := []
    should_quit := false }

/-- `App::set_status`. -/
def App.set_status (app : App) (level : StatusLevel) (message : String) : App :=
  { app with status := some { level := level, message := message } }

/-- `App::log`: append, then drop the oldest entries beyond 200. -/
def App.log (app : App) (line : String) : App :=
  let l := app.logs ++ [line]
  { app with logs := if l.length > 200 then l.drop (l.length - 200) else l }

/-- `App::actions_for_active_tab`, as a function of the tab. -/
def actions_for_tab : Tab → List ActionItem
  | .Generate => [ActionItem.GenerateFromStaged, ActionItem.Commit, ActionItem.ClearMessage]
  | .Stage => [ActionItem.StagePatch, ActionItem.StageAll,
      ActionItem.UnstagePatch, ActionItem.UnstageAll]
  | .Diff => [ActionItem.ViewStaged, ActionItem.ViewUnstaged, ActionItem.ViewBoth]
  | .Push => [ActionItem.PushBranch, ActionItem.PushSpecificTag, ActionItem.PushAllTags]
  | .Release => [ActionItem.ReleasePatch, ActionItem.ReleaseMinor,
      ActionItem.ReleaseMajor, ActionItem.ReleaseCustom]
  | .Config => [ActionItem.RunSetupWizard, ActionItem.ReloadConfig, ActionItem.ClearConfig]

/-- The index arithmetic of `App::clamp_action_index` on an index and a
catalog length. -/
def clamp_index (i len : Nat) : Nat :=
  if len = 0 then 0
  else if i ≥ len then len - 1
  else i

/-- `App::clamp_action_index`. -/
def App.clamp_action_index (app : App) : App :=
  { app with action_index := clamp_index app.action_index (actions_for_tab app.active_tab).length }

/-- `App::action_up`. -/
def App.action_up (app : App) : App :=
  let app := app.clamp_action_index
  if app.action_index > 0 then { app with action_index := app.action_index - 1 }
  else app

/-- `App::action_down`. -/
def App.action_down (app : App) : App :=
  let app := app.clamp_action_index
  let len := (actions_for_tab app.active_tab).length
  if len = 0 then app
  else if app.action_index + 1 < len then { app with action_index := app.action_index + 1 }
  else app

/-- `App::selected_action`. -/
def App.selected_action (app : App) : Option ActionItem :=
  (actions_for_tab app.active_tab).get? app.action_index

/-- `App::next_tab`. -/
def App.next_tab (app : App) : App :=
  let idx := (Tab.ALL.findIdx? (fun t => t == app.active_tab)).getD 0
  let tab := Tab.ALL.getD ((idx + 1) % Tab.ALL.length) Tab.Generate
  let app := { app with active_tab := tab, action_index := 0 }
  app.set_status StatusLevel.Info s!"Tab: {tab.title}"

/-- `App::prev_tab`. -/
def App.prev_tab (app : App) : App :=
  let idx := (Tab.ALL.findIdx? (fun t => t == app.active_tab)).getD 0
  let next := if idx = 0 then Tab.ALL.length - 1 else idx - 1
  let tab := Tab.ALL.getD next Tab.Generate
  let app := { app with active_tab := tab, action_index := 0 }
  app.set_status StatusLevel.Info s!"Tab: {tab.title}"

/-! ### Purpose handlers and modal key routing (`src/tui/app.rs`) -/

/-- Outcomes of the external calls reachable from the modal purpose handlers:
the task runner's busy flag, git repository detection, config-file removal,
the `Cargo.toml` version read, the release commit-message generation, the
release pipeline's subprocess outcomes, and the parsed origin URL. -/
structure HandlerEnv where
  busy : Bool
  isRepo : Bool
  clearConfigOk : Bool
  cargoVersion : Except String String
  genCommitMsg : Except String String
  releaseEnv : ReleaseEnv
  originHttps : Option String
deriving Repr

/-- `App::clear_config_file`: on success the provider/model labels are reset;
on failure the labels are untouched. -/
def clear_config_file (env : HandlerEnv) (app : App) : Except String Unit × App :=
  if env.clearConfigOk then
    (.ok (), { app with provider_label := "Not configured", model_label := "-" })
  else (.error "Failed to clear config file", app)

/-- `App::start_push_all_tags`: busy and not-a-repo short circuits; otherwise
the task is accepted (the runner was just observed idle). -/
def start_push_all_tags (env : HandlerEnv) (app : App) : Bool × App :=
  if env.busy then
    (false, (app.set_status StatusLevel.Info "Busy: another task is running.").log
      "Ignored: tried to start Push All Tags while another task is running.")
  else if env.isRepo = false then
    (true, (app.set_status StatusLevel.Error
      "Not a git repository (or git is not installed).").log
      "Push all tags failed: not a git repository.")
  else (true, app)

/-- `App::start_push_tag`. -/
def start_push_tag (env : HandlerEnv) (app : App) (tag : String) : Bool × App :=
  if env.busy then
    (false, (app.set_status StatusLevel.Info "Busy: another task is running.").log
      "Ignored: tried to start Push Tag while another task is running.")
  else if env.isRepo = false then
    (true, (app.set_status StatusLevel.Error
      "Not a git repository (or git is not installed).").log
      "Push tag failed: not a git repository.")
  else
    let t := rust_trim tag
    if t.isEmpty then
      (true, (app.set_status StatusLevel.Error "Tag cannot be empty.").log
        "Push tag failed: empty tag.")
    else (true, app)

/-- `App::perform_release`: compute the custom plan, generate (or fall back
to) a release commit message, and run the tag-release pipeline.  The label
mutations done inside `build_generator` are outside this model. -/
def perform_release (env : HandlerEnv) (app : App) (new_version : String) :
    Except String Unit × App :=
  let app := { app with pending_release_version := some new_version }
  match env.cargoVersion with
  | .error e => (.error e, app)
  | .ok old =>
    match plan_custom old new_version with
    | .error e => (.error e, app)
    | .ok plan =>
      let commit_message :=
        match env.genCommitMsg with
        | .ok m => m
        | .error _ => s!"chore(release): {plan.tag}"
      match (run_tag_release env.releaseEnv plan commit_message
          PreflightConfig.default ReleaseGuardrailConfig.default).1 with
      | .error e => (.error e, app)
      | .ok _ =>
        let app :=
          match env.originHttps with
          | some repo =>
            ((app.set_status StatusLevel.Success
              s!"Release initiated: pushed tag {plan.tag}").log
              s!"Track progress: {repo}").log s!"Release page: {repo}/{plan.tag}"
          | Option.none => app
        (.ok (), app)

/-- `App::handle_confirm`. -/
def handle_confirm (env : HandlerEnv) (app : App) (purpose : ConfirmPurpose) : App :=
  match purpose with
  | .ClearConfig =>
    match clear_config_file env app with
    | (.error e, app) => (app.set_status StatusLevel.Error e).log s!"Clear config failed: {e}"
    | (.ok _, app) => (app.set_status StatusLevel.Success "Config cleared.").log "Config cleared."
  | .PushAllTags => (start_push_all_tags env app).2
  | .ReleaseTrigger =>
    match app.pending_release_version with
    | some v =>
      match perform_release env app v with
      | (.ok _, app) =>
        let tag := "v" ++ v
        let app := (app.set_status StatusLevel.Success
          s!"Release initiated: pushed tag {tag}").log s!"Release initiated: {tag}"
        match env.originHttps with
        | some repo => (app.log s!"Track progress: {repo}").log s!"Release page: {repo}/{tag}"
        | Option.none => app
      | (.error e, app) =>
        (app.set_status StatusLevel.Error e).log s!"Release failed: {e}"
    | Option.none =>
      (app.set_status StatusLevel.Error "No pending release version.").log
        "Release failed: missing pending version."

/-- `App::handle_text_input`. -/
def handle_text_input (env : HandlerEnv) (app : App) (purpose : TextInputPurpose)
    (value : String) : App :=
  match purpose with
  | .PushSpecificTag =>
    let v := rust_trim value
    if v.isEmpty then
      (app.set_status StatusLevel.Error "Tag cannot be empty.").log "Push tag failed: empty tag."
    else (start_push_tag env app v).2
  | .ReleaseCustomVersion =>
    let v := rust_trim value
    if v.isEmpty then
      (app.set_status StatusLevel.Error "Version cannot be empty.").log
        "Release failed: empty version."
    else
      { app with
        pending_release_version := some v
        modal :=
          { kind := ModalKind.Confirm
            title := "Final confirmation"
            message := s!"Create and push tag v{v}? This triggers CI release + crates publish."
            confirm_purpose := some ConfirmPurpose.ReleaseTrigger
            input_purpose := Option.none
            input_value := "" } }

/-- A key event, with the modifier combinations the app distinguishes baked
into the constructors (`char` is an unmodified printable key). -/
inductive Key where
  | esc
  | enter
  | backspace
  | tabKey
  | left
  | right
  | up
  | down
  | pageUp
  | pageDown
  | home
  | char (c : Char)
  | ctrlC
  | altLeft
  | altRight
  | other
deriving DecidableEq, Repr

/-- The modal-capture block of `App::handle_global_key` (taken when a modal
is open): Ctrl+C force quits, Escape closes the modal, Enter accepts a
Confirm or TextInput modal (resetting the modal to `None` before invoking the
purpose handler), Backspace and printable characters edit a TextInput buffer,
and every other key is swallowed. -/
def handle_modal_key (env : HandlerEnv) (app : App) (key : Key) : App × Bool :=
  match key with
  | .ctrlC => ({ app with should_quit := true }, true)
  | .esc =>
    (({ app with modal := ModalState.none } : App).set_status StatusLevel.Info
      "Closed dialog.", true)
  | .enter =>
    if app.modal.kind = ModalKind.Confirm then
      let purpose := app.modal.confirm_purpose
      let app1 := { app with modal := ModalState.none }
      match purpose with
      | some p => (handle_confirm env app1 p, true)
      | Option.none => (app1, true)
    else if app.modal.kind = ModalKind.TextInput then
      let purpose := app.modal.input_purpose
      let value := rust_trim app.modal.input_value
      let app1 := { app with modal := ModalState.none }
      match purpose with
      | some p => (handle_text_input env app1 p value, true)
      | Option.none => (app1, true)
    else (app, true)
  | .backspace =>
    if app.modal.kind = ModalKind.TextInput then
      ({ app with modal :=
        { app.modal with input_value := app.modal.input_value.dropRight 1 } }, true)
    else (app, true)
  | .char c =>
    if app.modal.kind = ModalKind.TextInput then
      (if rust_is_control c then (app, true)
       else ({ app with modal :=
         { app.modal with input_value := app.modal.input_value.push c } }, true))
    else (app, true)
  | _ => (app, true)

/-- `App::handle_global_key`: modal capture first, then the help toggle and
the help-overlay capture. -/
def handle_global_key (env : HandlerEnv) (app : App) (key : Key) : App × Bool :=
  if app.modal.kind ≠ ModalKind.None then
    handle_modal_key env app key
  else if key = Key.char '?' then
    let app := { app with show_help := !app.show_help }
    (app.set_status StatusLevel.Info
      (if app.show_help then "Help opened. Press ? again to close." else "Help closed."), true)
  else if app.show_help then
    match key with
    | .esc => (({ app with show_help := false } : App).set_status StatusLevel.Info
        "Help closed.", true)
    | .ctrlC => ({ app with should_quit := true }, true)
    | _ => (app, true)
  else (app, false)

/-! ### Diff-viewer scrolling (`src/tui/input.rs` and `src/tui/view.rs`) -/

/-- The diff-tab scrolling branch of `dispatch_key` in `src/tui/input.rs`
(active tab is Diff and focus is not the action list).  `diff_scroll` is a
`usize`: subtraction and `saturating_add` saturate. -/
def dispatch_diff_scroll (app : App) (key : Key) : App :=
  if app.active_tab = Tab.Diff ∧ app.focus ≠ Focus.LeftPane then
    match key with
    | .up => if app.diff_scroll > 0 then { app with diff_scroll := app.diff_scroll - 1 } else app
    | .down => { app with diff_scroll := usize_saturating_add app.diff_scroll 1 }
    | .pageUp => { app with diff_scroll := app.diff_scroll - 20 }
    | .pageDown => { app with diff_scroll := usize_saturating_add app.diff_scroll 20 }
    | .home => { app with diff_scroll := 0 }
    | _ => app
  else app

/-- The scroll bound `total.saturating_sub(viewport_h)` computed by
`draw_diff_tab` in `src/tui/view.rs`. -/
def diff_max_scroll (diff_text : String) (viewport_h : Nat) : Nat :=
  (rust_lines diff_text).length - viewport_h

/-- The scroll offset actually used for rendering by `draw_diff_tab`:
`app.diff_scroll.min(max_scroll)`. -/
def draw_diff_scroll (app : App) (viewport_h : Nat) : Nat :=
  min app.diff_scroll (diff_max_scroll app.diff_text viewport_h)

/-! ### Single-flight background task runner (`src/tui/tasks.rs`)

The runner is modelled as a transition system over the state shared between
the UI thread and the worker thread: the current-task slot, the FIFO event
queue, and the (at most one) spawned worker that has not yet sent its
`Completed` event.  The lock in the Rust code makes each of the transitions
below atomic; `accepted` / `completedApplied` are ghost counters of accepted
`start` calls and applied `Completed` events.  A worker's body is its final
outcome (`Except String TaskResult`); `Progress` sends are a separate
transition.  Instants are modelled as `Nat` ticks. -/

/-- `RunningTask` from `src/tui/tasks.rs`. -/
structure RunningTask where
  label : String
  started_at : Nat
  spinner_index : Nat
deriving DecidableEq, Repr

/-- `TaskKind` from `src/tui/tasks.rs`. -/
inductive TaskKind where
  | GenerateCommitFromStaged
  | CommitFromEditor
  | StageAll
  | PushBranch
  | PushTag
  | PushAllTags
  | LoadDiff
deriving DecidableEq, Repr

/-- `TaskResult` from `src/tui/tasks.rs`. -/
inductive TaskResult where
  | OkMessage (status : String) (log : Option String)
  | GeneratedCommitMessage (message : String) (summary : String)
      (provider : String) (model : String)
  | LoadedDiff (source : DiffViewSource) (text : String) (status : String)
  | Error (message : String)
deriving DecidableEq, Repr

/-- `TaskEvent` from `src/tui/tasks.rs`. -/
inductive TaskEvent where
  | Started (kind : TaskKind) (label : String) (started_at : Nat)
  | Progress (message : String)
  | Completed (result : TaskResult)
deriving DecidableEq, Repr

/-- The worker boundary in `TaskRunner::start`:
`f(tx).unwrap_or_else(|e| TaskResult::Error { message: e.to_string() })`. -/
def worker_outcome : Except String TaskResult → TaskResult
  | .ok r => r
  | .error e => TaskResult.Error e

/-- The runner state shared between the UI thread and workers, together with
the event queue and ghost counters. -/
structure RunnerState where
  current : Option RunningTask
  queue : List TaskEvent
  worker : Option (Except String TaskResult)
  accepted : Nat
  completedApplied : Nat
deriving Repr

/-- `TaskRunner::new()`. -/
def RunnerState.init : RunnerState :=
  { current := Option.none, queue := [], worker := Option.none,
    accepted := 0, completedApplied := 0 }

/-- `TaskRunner::is_busy`. -/
def RunnerState.is_busy (s : RunnerState) : Bool := s.current.isSome

/-- `TaskRunner::start`: under the lock, a non-empty current slot rejects the
call with `false` and changes nothing; otherwise the slot is filled, a
`Started` event is sent, and the worker is spawned. -/
def runner_start (s : RunnerState) (kind : TaskKind) (label : String) (now : Nat)
    (work : Except String TaskResult) : Bool × RunnerState :=
  if s.current.isSome then (false, s)
  else
    (true,
      { s with
        current := some { label := label, started_at := now, spinner_index := 0 }
        queue := s.queue ++ [TaskEvent.Started kind label now]
        worker := some work
        accepted := s.accepted + 1 })

/-- A worker sending a `Progress` event. -/
def worker_progress (s : RunnerState) (message : String) : RunnerState :=
  match s.worker with
  | some _ => { s with queue := s.queue ++ [TaskEvent.Progress message] }
  | Option.none => s

/-- The worker finishing: its outcome is converted through `worker_outcome`
and sent as the single `Completed` event. -/
def worker_finish (s : RunnerState) : RunnerState :=
  match s.worker with
  | some w =>
    { s with
      queue := s.queue ++ [TaskEvent.Completed (worker_outcome w)]
      worker := Option.none }
  | Option.none => s

/-- The `TaskResult` arm of `TaskRunner::apply_event` (updates to `App`). -/
def apply_result (app : App) (result : TaskResult) : App :=
  match result with
  | .OkMessage status log =>
    let app := app.set_status StatusLevel.Success status
    match log with
    | some l => app.log l
    | Option.none => app
  | .GeneratedCommitMessage message summary provider model =>
    let app := { app with
      diff_source_label := "Staged (recommended)"
      diff_summary := summary
      provider_label := provider
      model_label := model
      commit_editor := rust_lines message }
    (app.set_status StatusLevel.Success "Generated.").log "Generated commit message."
  | .LoadedDiff source text status =>
    let app := { app with diff_view_source := source, diff_scroll := 0, diff_text := text }
    (app.set_status StatusLevel.Success status).log "Loaded diff."
  | .Error message =>
    (app.set_status StatusLevel.Error message).log s!"Error: {message}"

/-- `TaskRunner::apply_event`: `Started` fills the slot and sets the status,
`Progress` updates status and log, `Completed` clears the slot first and then
applies its result to the app. -/
def apply_event (s : RunnerState) (app : App) (ev : TaskEvent) : RunnerState × App :=
  match ev with
  | .Started _kind label started_at =>
    ({ s with current := some { label := label, started_at := started_at, spinner_index := 0 } },
      app.set_status StatusLevel.Info label)
  | .Progress message =>
    (s, (app.set_status StatusLevel.Info message).log message)
  | .Completed result =>
    ({ s with current := Option.none, completedApplied := s.completedApplied + 1 },
      apply_result app result)

/-- One iteration of `TaskRunner::drain_events`: `try_recv` one event and
apply it (a no-op on an empty queue). -/
def apply_next (s : RunnerState) (app : App) : RunnerState × App :=
  match s.queue with
  | [] => (s, app)
  | ev :: rest => apply_event { s with queue := rest } app ev

/-- The atomic transitions of the runner system: a UI-thread `start` call, a
worker `Progress` send, the worker finishing, and the UI thread applying one
queued event. -/
inductive RunnerOp where
  | opStart (kind : TaskKind) (label : String) (now : Nat) (work : Except String TaskResult)
  | opProgress (message : String)
  | opFinish
  | opApply

/-- Interpret one transition. -/
def runner_step : RunnerState × App → RunnerOp → RunnerState × App
  | (s, app), .opStart kind label now work => ((runner_start s kind label now work).2, app)
  | (s, app), .opProgress message => (worker_progress s message, app)
  | (s, app), .opFinish => (worker_finish s, app)
  | (s, app), .opApply => apply_next s app

/-- Run a sequence of transitions from the initial state. -/
def runner_run (ops : List RunnerOp) : RunnerState × App :=
  ops.foldl runner_step (RunnerState.init, App.new)

/-- 1 when the current-task slot is filled. -/
def busyN (s : RunnerState) : Nat := if s.current.isSome then 1 else 0

/-- 1 when a spawned worker has not yet sent its `Completed` event. -/
def workerN (s : RunnerState) : Nat := if s.worker.isSome then 1 else 0

/-- Whether a task event is a `Completed` event. -/
def isCompletedEv : TaskEvent → Bool
  | .Completed _ => true
  | _ => false

/-- Number of unapplied `Completed` events in the queue. -/
def countCompleted (q : List TaskEvent) : Nat := (q.filter isCompletedEv).length

/-- The runner's inductive invariant: the ghost accounting matches the slot,
every unapplied completion is balanced against the slot, a `Completed` event
is always last in the queue, and an idle runner has an empty queue. -/
def RunnerInv (s : RunnerState) : Prop :=
  s.accepted = s.completedApplied + busyN s
  ∧ busyN s = countCompleted s.queue + workerN s
  ∧ (∀ e ∈ s.queue.dropLast, isCompletedEv e = false)
  ∧ (s.current = Option.none → s.queue = [])

/-! ## Theorems -/

/-- A version part that parses as a `u64` is non-empty. -/
theorem parse_u64_ne_empty {p : String} {x : Nat} (h : parse_u64 p = some x) :
    p.isEmpty = false := by
  cases hp : p.isEmpty with
  | false => rfl
  | true =>
    have hpe : p = "" := (String.isEmpty_iff p).mp hp
    rw [hpe] at h
    simp [show parse_u64 "" = Option.none from rfl] at h

/-- `validate_parts` steps over a part that parses as a `u64`. -/
theorem validate_parts_cons {p : String} {x : Nat} (rest : List String)
    (h : parse_u64 p = some x) :
    validate_parts (p :: rest) = validate_parts rest := by
  simp [validate_parts, parse_u64_ne_empty h, h]

/-- C5: version bumping is a deterministic function of the current version and
the bump kind.  Concretely, `bump(1.2.3, Patch) = 1.2.4`,
`bump(1.2.3, Minor) = 1.3.0`, `bump(1.2.3, Major) = 2.0.0`; in general, for a
valid version whose three numeric components are `x`, `y`, `z` (with the
incremented component still representable as a `u64`), Patch yields
`x.y.(z+1)`, Minor yields `x.(y+1).0`, and Major yields `(x+1).0.0`. -/
theorem bump_semver_deterministic :
    (bump_semver "1.2.3" BumpKind.Patch = Except.ok "1.2.4"
      ∧ bump_semver "1.2.3" BumpKind.Minor = Except.ok "1.3.0"
      ∧ bump_semver "1.2.3" BumpKind.Major = Except.ok "2.0.0")
    ∧ ∀ (v p0 p1 p2 : String) (x y z : Nat),
        splitChar '.' v = [p0, p1, p2] →
        parse_u64 p0 = some x → parse_u64 p1 = some y → parse_u64 p2 = some z →
        x + 1 < U64_MOD → y + 1 < U64_MOD → z + 1 < U64_MOD →
        bump_semver v BumpKind.Patch = Except.ok s!"{x}.{y}.{z + 1}"
        ∧ bump_semver v BumpKind.Minor = Except.ok s!"{x}.{y + 1}.0"
        ∧ bump_semver v BumpKind.Major = Except.ok s!"{x + 1}.0.0" := by
  refine ⟨⟨rfl, rfl, rfl⟩, ?_⟩
  intro v p0 p1 p2 x y z hsplit h0 h1 h2 hx hy hz
  have hparts : validate_parts [p0, p1, p2] = Except.ok () := by
    rw [validate_parts_cons _ h0, validate_parts_cons _ h1, validate_parts_cons _ h2]
    rfl
  have hv : validate_semver_3 v = Except.ok () := by
    simp [validate_semver_3, hsplit, hparts]
  have hmx : (x + 1) % U64_MOD = x + 1 := Nat.mod_eq_of_lt hx
  have hmy : (y + 1) % U64_MOD = y + 1 := Nat.mod_eq_of_lt hy
  have hmz : (z + 1) % U64_MOD = z + 1 := Nat.mod_eq_of_lt hz
  refine ⟨?_, ?_, ?_⟩ <;>
    simp [bump_semver, hv, hsplit, h0, h1, h2, hmx, hmy, hmz]

/-- Witness for C5 at the version `1.2.3`. -/
theorem bump_semver_deterministic_witness :
    bump_semver "1.2.3" BumpKind.Patch = Except.ok "1.2.4"
    ∧ bump_semver "1.2.3" BumpKind.Minor = Except.ok "1.3.0"
    ∧ bump_semver "1.2.3" BumpKind.Major = Except.ok "2.0.0" := by
  have h := bump_semver_deterministic.2 "1.2.3" "1" "2" "3" 1 2 3 rfl rfl rfl rfl
    (by decide) (by decide) (by decide)
  exact ⟨h.1, h.2.1, h.2.2⟩

/-- C6: custom release version validation.  `plan_custom` errors on `1.2`
(wrong arity), `1.2.x` (non-numeric), the empty string, any input whose
trimmed value fails three-part numeric validation, and any input equal (after
trimming) to the current version; every accepted input yields a plan whose
new version is the trimmed input and whose tag is `v` followed by it. -/
theorem plan_custom_validation :
    (∀ old : String, (plan_custom old "1.2").isOk = false)
    ∧ (∀ old : String, (plan_custom old "1.2.x").isOk = false)
    ∧ (∀ old : String, (plan_custom old "").isOk = false)
    ∧ (∀ old new_version : String, rust_trim new_version = old →
        (plan_custom old new_version).isOk = false)
    ∧ (∀ old new_version : String,
        (validate_semver_3 (rust_trim new_version)).isOk = false →
        (plan_custom old new_version).isOk = false)
    ∧ (∀ (old new_version : String) (plan : ReleasePlan),
        plan_custom old new_version = Except.ok plan →
        plan.new_version = rust_trim new_version
        ∧ plan.tag = "v" ++ rust_trim new_version) := by
  refine ⟨fun old => rfl, fun old => rfl, fun old => rfl, ?_, ?_, ?_⟩
  · intro old nv htrim
    unfold plan_custom
    cases he : (rust_trim nv).isEmpty with
    | true => simp [he, Except.isOk, Except.toBool]
    | false =>
      cases hval : validate_semver_3 (rust_trim nv) with
      | error e => simp [he, hval, Except.isOk, Except.toBool]
      | ok u => simp [he, hval, ← htrim, Except.isOk, Except.toBool]
  · intro old nv hval
    unfold plan_custom
    cases he : (rust_trim nv).isEmpty with
    | true => simp [he, Except.isOk, Except.toBool]
    | false =>
      cases hv : validate_semver_3 (rust_trim nv) with
      | error e => simp [he, hv, Except.isOk, Except.toBool]
      | ok u => rw [hv] at hval; simp [Except.isOk, Except.toBool] at hval
  · intro old nv plan h
    simp only [plan_custom] at h
    cases he : (rust_trim nv).isEmpty with
    | true => rw [he] at h; simp at h
    | false =>
      rw [he] at h
      simp only [Bool.false_eq_true, if_false] at h
      cases hv : validate_semver_3 (rust_trim nv) with
      | error e => rw [hv] at h; simp at h
      | ok u =>
        rw [hv] at h
        by_cases heq : old = rust_trim nv
        · simp [heq] at h
        · simp only [heq, if_false] at h
          rw [Except.ok.injEq] at h
          subst h
          exact ⟨rfl, rfl⟩

/-- Witness for C6 at the current version `1.2.3`. -/
theorem plan_custom_validation_witness :
    (plan_custom "1.2.3" "1.2").isOk = false
    ∧ (plan_custom "1.2.3" "1.2.3").isOk = false
    ∧ ((⟨"1.2.3", "1.2.4", "v1.2.4"⟩ : ReleasePlan).new_version = rust_trim "1.2.4"
        ∧ (⟨"1.2.3", "1.2.4", "v1.2.4"⟩ : ReleasePlan).tag = "v" ++ rust_trim "1.2.4") :=
  ⟨plan_custom_validation.1 "1.2.3",
   plan_custom_validation.2.2.2.1 "1.2.3" "1.2.3" rfl,
   plan_custom_validation.2.2.2.2.2 "1.2.3" "1.2.4" ⟨"1.2.3", "1.2.4", "v1.2.4"⟩ rfl⟩

/-- C10: `get_diff_allow_empty` with source `Both` never fails merely because
there are no changes: when both underlying `git diff` commands succeed it
returns the empty string if both diffs trim to empty, the single non-empty
diff verbatim (no section header) if exactly one is non-empty, and the
staged diff under a `--- STAGED ---` header followed by the unstaged diff
under a `--- UNSTAGED ---` header if both are non-empty. -/
theorem get_diff_allow_empty_both_spec :
    ∀ env : DiffCmdEnv, env.isRepo = true → env.stagedOk = true → env.unstagedOk = true →
      ((rust_trim env.stagedOut).isEmpty = true → (rust_trim env.unstagedOut).isEmpty = true →
        get_diff_allow_empty env DiffSource.Both = Except.ok "")
      ∧ ((rust_trim env.stagedOut).isEmpty = false → (rust_trim env.unstagedOut).isEmpty = true →
        get_diff_allow_empty env DiffSource.Both = Except.ok env.stagedOut)
      ∧ ((rust_trim env.stagedOut).isEmpty = true → (rust_trim env.unstagedOut).isEmpty = false →
        get_diff_allow_empty env DiffSource.Both = Except.ok env.unstagedOut)
      ∧ ((rust_trim env.stagedOut).isEmpty = false → (rust_trim env.unstagedOut).isEmpty = false →
        get_diff_allow_empty env DiffSource.Both = Except.ok
          ("--- STAGED ---\n" ++ env.stagedOut ++ "\n\n--- UNSTAGED ---\n"
            ++ env.unstagedOut)) := by
  intro env hrepo hs hu
  refine ⟨?_, ?_, ?_, ?_⟩ <;> intro h1 h2 <;>
    simp [get_diff_allow_empty, get_diff_staged_allow_empty, get_diff_unstaged_allow_empty,
      ensure_repo, hrepo, hs, hu, h1, h2]

/-- Witness for C10: a repo with a staged diff and no unstaged diff. -/
theorem get_diff_allow_empty_both_spec_witness :
    get_diff_allow_empty ⟨true, true, "diff --cached", true, ""⟩ DiffSource.Both
      = Except.ok "diff --cached" :=
  (get_diff_allow_empty_both_spec ⟨true, true, "diff --cached", true, ""⟩
    rfl rfl rfl).2.1 rfl rfl

/-- C8: the selected action index stays within the bounds of the active tab's
action catalog: every tab's catalog is non-empty, a tab switch (either
direction) resets the index to 0, which is below the new catalog's length,
`action_up` and `action_down` always land strictly below the catalog length,
and the clamp maps any index to 0 for an empty catalog. -/
theorem action_index_in_bounds :
    (∀ t : Tab, 0 < (actions_for_tab t).length)
    ∧ (∀ app : App, app.next_tab.action_index = 0
        ∧ app.next_tab.action_index < (actions_for_tab app.next_tab.active_tab).length)
    ∧ (∀ app : App, app.prev_tab.action_index = 0
        ∧ app.prev_tab.action_index < (actions_for_tab app.prev_tab.active_tab).length)
    ∧ (∀ app : App,
        app.action_up.action_index < (actions_for_tab app.action_up.active_tab).length)
    ∧ (∀ app : App,
        app.action_down.action_index < (actions_for_tab app.action_down.active_tab).length)
    ∧ (∀ i : Nat, clamp_index i 0 = 0) := by
  refine ⟨fun t => by cases t <;> simp [actions_for_tab], ?_, ?_, ?_, ?_, fun i => rfl⟩
  · intro app
    obtain ⟨t, f, sh, m, ai, a1, a2, a3, a4, a5, a6, a7, a8, a9, a10, a11, a12, a13⟩ := app
    cases t <;> simp [App.next_tab, App.set_status, actions_for_tab, Tab.ALL]
  · intro app
    obtain ⟨t, f, sh, m, ai, a1, a2, a3, a4, a5, a6, a7, a8, a9, a10, a11, a12, a13⟩ := app
    cases t <;> simp [App.prev_tab, App.set_status, actions_for_tab, Tab.ALL]
  · intro app
    obtain ⟨t, f, sh, m, ai, a1, a2, a3, a4, a5, a6, a7, a8, a9, a10, a11, a12, a13⟩ := app
    cases t <;>
      simp only [App.action_up, App.clamp_action_index, clamp_index, actions_for_tab] <;>
      split_ifs <;> simp_all <;> omega
  · intro app
    obtain ⟨t, f, sh, m, ai, a1, a2, a3, a4, a5, a6, a7, a8, a9, a10, a11, a12, a13⟩ := app
    cases t <;>
      simp only [App.action_down, App.clamp_action_index, clamp_index, actions_for_tab] <;>
      split_ifs <;> simp_all <;> omega

/-- The concrete state used to settle C9: the Diff tab is active, focus is on
the right pane, no diff is loaded, and the stored scroll offset is 0. -/
def appDiffScroll : App :=
  { App.new with active_tab := Tab.Diff, focus := Focus.RightPane }

/-- C9 counterexample: with an empty diff (0 lines) and any viewport (here
height 10), the bound `max(0, total_lines - viewport_height)` is 0, yet one
Down key press leaves the stored `diff_scroll` at 1 — the key handlers do not
clamp the stored offset to the claimed range. -/
theorem diff_scroll_stored_unclamped :
    (dispatch_diff_scroll appDiffScroll Key.down).diff_scroll = 1
    ∧ diff_max_scroll (dispatch_diff_scroll appDiffScroll Key.down).diff_text 10 = 0
    ∧ ¬((dispatch_diff_scroll appDiffScroll Key.down).diff_scroll ≤
        diff_max_scroll (dispatch_diff_scroll appDiffScroll Key.down).diff_text 10) := by
  refine ⟨?_, rfl, ?_⟩
  · show min (0 + 1) USIZE_MAX = 1
    simp [USIZE_MAX]
  · intro h
    rw [show diff_max_scroll (dispatch_diff_scroll appDiffScroll Key.down).diff_text 10
        = 0 from rfl] at h
    rw [show (dispatch_diff_scroll appDiffScroll Key.down).diff_scroll
        = min (0 + 1) USIZE_MAX from rfl] at h
    simp [USIZE_MAX] at h

/-- C9 amended: the scroll keys leave the stored offset non-negative (it is a
`usize`) and up/page-up/home never increase it, but down/page-down increment
it without an upper clamp; the offset is clamped to
`[0, max(0, total_lines - viewport_height)]` only when it is used for
rendering (`draw_diff_tab` takes the `min` with the bound, leaving the stored
value untouched). -/
theorem diff_scroll_clamped_at_draw :
    ∀ (app : App) (key : Key) (viewport_h : Nat),
      (dispatch_diff_scroll app key).diff_text = app.diff_text
      ∧ draw_diff_scroll (dispatch_diff_scroll app key) viewport_h ≤
          diff_max_scroll app.diff_text viewport_h
      ∧ ((key = Key.up ∨ key = Key.pageUp ∨ key = Key.home) →
          (dispatch_diff_scroll app key).diff_scroll ≤ app.diff_scroll) := by
  intro app key h
  have htext : (dispatch_diff_scroll app key).diff_text = app.diff_text := by
    cases key <;> unfold dispatch_diff_scroll <;> split_ifs <;> rfl
  refine ⟨htext, ?_, ?_⟩
  · unfold draw_diff_scroll
    rw [htext]
    exact min_le_right _ _
  · intro hk
    rcases hk with hk | hk | hk <;> subst hk <;> unfold dispatch_diff_scroll <;>
      split_ifs <;> first | rfl | simp

/-- Witness for C9's amended claim: one Home press on the counterexample
state, with a viewport of height 10. -/
theorem diff_scroll_clamped_at_draw_witness :
    draw_diff_scroll (dispatch_diff_scroll appDiffScroll Key.home) 10 ≤
      diff_max_scroll appDiffScroll.diff_text 10
    ∧ (dispatch_diff_scroll appDiffScroll Key.home).diff_scroll ≤
        appDiffScroll.diff_scroll :=
  ⟨(diff_scroll_clamped_at_draw appDiffScroll Key.home 10).2.1,
   (diff_scroll_clamped_at_draw appDiffScroll Key.home 10).2.2
     (Or.inr (Or.inr rfl))⟩

/-- C7: while a modal is open, `ModalState.kind` is `None` immediately after
Escape; on Enter over a Confirm modal and on Enter over a TextInput modal the
modal is reset to `None` first and only then is the purpose handler invoked
on the reset state (receiving, for text input, the trimmed input buffer) —
so a handler can open a new modal only after the old one was reset. -/
theorem modal_reset_before_handler :
    ∀ (env : HandlerEnv) (app : App),
      app.modal.kind ≠ ModalKind.None →
      ((handle_global_key env app Key.esc).1.modal.kind = ModalKind.None)
      ∧ (∀ p : ConfirmPurpose, app.modal.kind = ModalKind.Confirm →
          app.modal.confirm_purpose = some p →
          handle_global_key env app Key.enter
            = (handle_confirm env { app with modal := ModalState.none } p, true)
          ∧ ({ app with modal := ModalState.none } : App).modal.kind = ModalKind.None)
      ∧ (∀ p : TextInputPurpose, app.modal.kind = ModalKind.TextInput →
          app.modal.input_purpose = some p →
          handle_global_key env app Key.enter
            = (handle_text_input env { app with modal := ModalState.none } p
                (rust_trim app.modal.input_value), true)
          ∧ ({ app with modal := ModalState.none } : App).modal.kind = ModalKind.None) := by
  intro env app hopen
  refine ⟨?_, ?_, ?_⟩
  · simp [handle_global_key, handle_modal_key, hopen, App.set_status]
    rfl
  · intro p hkind hpurpose
    refine ⟨?_, rfl⟩
    simp [handle_global_key, handle_modal_key, hopen, hkind, hpurpose]
  · intro p hkind hpurpose
    refine ⟨?_, rfl⟩
    have hnot : app.modal.kind ≠ ModalKind.Confirm := by
      rw [hkind]; intro h; cases h
    simp [handle_global_key, handle_modal_key, hopen, hkind, hnot, hpurpose]

/-- A fully-mocked handler environment for the C7 witness. -/
def handlerEnvW : HandlerEnv :=
  { busy := false
    isRepo := true
    clearConfigOk := true
    cargoVersion := Except.ok "0.1.0"
    genCommitMsg := Except.ok "chore: release"
    releaseEnv :=
      { isRepo := true, remoteUrlOk := true, statusOk := true, statusStdout := ""
        branchOk := true, branchStdout := "master\n", fmtOk := true, clippyOk := true
        testOk := true, tomlUpdateOk := true, addOk := true, commitOk := true
        tagListOk := true, tagListStdout := "", lsRemoteOk := true, lsRemoteStdout := ""
        tagCreateOk := true, pushTagOk := true }
    originHttps := Option.none }

/-- The open-Confirm-modal state for the C7 witness (the Clear Config
confirmation). -/
def appConfirmW : App :=
  { App.new with modal :=
    { kind := ModalKind.Confirm
      title := "Confirm"
      message := "Clear config? This will delete the local config file."
      confirm_purpose := some ConfirmPurpose.ClearConfig
      input_purpose := Option.none
      input_value := "" } }

/-- Witness for C7: Enter on an open Clear Config confirmation dialog. -/
theorem modal_reset_before_handler_witness :
    handle_global_key handlerEnvW appConfirmW Key.enter
      = (handle_confirm handlerEnvW { appConfirmW with modal := ModalState.none }
          ConfirmPurpose.ClearConfig, true)
    ∧ ({ appConfirmW with modal := ModalState.none } : App).modal.kind = ModalKind.None
    ∧ (handle_global_key handlerEnvW appConfirmW Key.esc).1.modal.kind = ModalKind.None := by
  have h := modal_reset_before_handler handlerEnvW appConfirmW (by
    show ModalKind.Confirm ≠ ModalKind.None
    decide)
  have hc := h.2.1 ConfirmPurpose.ClearConfig rfl rfl
  exact ⟨hc.1, hc.2, h.1⟩

/-! ### Release-pipeline lemmas (for C2 and C3) -/

/-- Repository-mutating effects (as opposed to preflight command executions
and read-only collision queries). -/
def Eff.isMutation : Eff → Bool
  | .writeCargoToml => true
  | .generateLockfile => true
  | .gitAddAll => true
  | .gitCommit => true
  | .gitCreateTag _ => true
  | .gitPushTag _ _ => true
  | .preflightCmd _ => false
  | .queryTagLocal => false
  | .queryTagRemote => false

theorem effBind_error_fst {α β : Type} {a : Except String α × List Eff}
    {b : α → Except String β × List Eff} {e : String} (h : a.1 = Except.error e) :
    effBind a b = (Except.error e, a.2) := by
  obtain ⟨r, t⟩ := a
  simp only at h
  subst h
  rfl

theorem effBind_ok_fst {α β : Type} {a : Except String α × List Eff}
    {b : α → Except String β × List Eff} {x : α} (h : a.1 = Except.ok x) :
    effBind a b = ((b x).1, a.2 ++ (b x).2) := by
  obtain ⟨r, t⟩ := a
  simp only at h
  subst h
  rfl

theorem preflight_step_trace {enabled ok : Bool} {cmd msg : String} {e : Eff}
    (h : e ∈ (preflight_step enabled ok cmd msg).2) : e = Eff.preflightCmd cmd := by
  unfold preflight_step at h
  cases enabled <;> simp at h
  exact h

/-- Every effect in the preflight trace is a preflight command execution. -/
theorem run_preflight_trace {env : ReleaseEnv} {cfg : PreflightConfig} {e : Eff}
    (h : e ∈ (run_preflight env cfg).2) : Eff.isMutation e = false := by
  unfold run_preflight at h
  rcases h1 : (preflight_step cfg.fmt_check env.fmtOk "cargo fmt --check"
      "Release preflight failed: cargo fmt --check").1 with e1 | u1
  · rw [effBind_error_fst h1] at h
    rw [preflight_step_trace h]
    rfl
  · rw [effBind_ok_fst h1] at h
    simp only [List.mem_append] at h
    rcases h with h | h
    · rw [preflight_step_trace h]; rfl
    · rcases h2 : (preflight_step cfg.clippy_deny_warnings env.clippyOk
          "cargo clippy -- -D warnings"
          "Release preflight failed: cargo clippy -- -D warnings").1 with e2 | u2
      · rw [effBind_error_fst h2] at h
        rw [preflight_step_trace h]; rfl
      · rw [effBind_ok_fst h2] at h
        simp only [List.mem_append] at h
        rcases h with h | h
        · rw [preflight_step_trace h]; rfl
        · rw [preflight_step_trace h]; rfl

/-- A clean working tree is necessary for the guardrails to pass. -/
theorem guardrails_ok_clean {env : ReleaseEnv} {cfg : ReleaseGuardrailConfig}
    (h : assert_release_guardrails env cfg = Except.ok ()) :
    env.statusOk = true ∧ env.statusStdout.isEmpty = true := by
  unfold assert_release_guardrails at h
  rcases h1 : ensure_git_repo env with e1 | u1 <;> rw [h1] at h
  · exact Except.noConfusion h
  · rcases h2 : ensure_remote_exists env cfg.remote with e2 | u2 <;> rw [h2] at h
    · exact Except.noConfusion h
    · rcases h3 : ensure_clean_working_tree env with e3 | u3 <;> rw [h3] at h
      · exact Except.noConfusion h
      · unfold ensure_clean_working_tree at h3
        cases hs : env.statusOk <;> rw [hs] at h3 <;> simp_all [ensure_clean_working_tree]

/-- A non-empty (trimmed) configured remote is necessary for the guardrails
to pass. -/
theorem guardrails_ok_remote {env : ReleaseEnv} {cfg : ReleaseGuardrailConfig}
    (h : assert_release_guardrails env cfg = Except.ok ()) :
    (rust_trim cfg.remote).isEmpty = false := by
  unfold assert_release_guardrails at h
  rcases h1 : ensure_git_repo env with e1 | u1 <;> rw [h1] at h
  · exact Except.noConfusion h
  · rcases h2 : ensure_remote_exists env cfg.remote with e2 | u2 <;> rw [h2] at h
    · exact Except.noConfusion h
    · simp only [ensure_remote_exists] at h2
      cases hr : (rust_trim cfg.remote).isEmpty
      · rfl
      · rw [hr] at h2
        simp at h2

/-- C2: the release pipeline mutates nothing before every guardrail and every
enabled preflight check has passed.  In particular, with a dirty working tree
(`git status --porcelain` printed something) `run_tag_release` returns an
error having performed no action at all — no preflight command and no file
mutation; and in general any mutating effect in the trace implies both the
guardrails and the preflight stage succeeded. -/
theorem no_mutation_before_guardrails_and_preflight :
    ∀ (env : ReleaseEnv) (plan : ReleasePlan) (msg : String)
      (pre : PreflightConfig) (guards : ReleaseGuardrailConfig),
      (env.statusStdout.isEmpty = false →
        (run_tag_release env plan msg pre guards).1.isOk = false
        ∧ (run_tag_release env plan msg pre guards).2 = [])
      ∧ (∀ e ∈ (run_tag_release env plan msg pre guards).2, Eff.isMutation e = true →
          assert_release_guardrails env guards = Except.ok ()
          ∧ (run_preflight env pre).1 = Except.ok ()) := by
  intro env plan msg pre guards
  constructor
  · intro hdirty
    rcases ha : assert_release_guardrails env guards with ae | au
    · unfold run_tag_release
      rw [effBind_error_fst
        (show ((assert_release_guardrails env guards), ([] : List Eff)).1
          = Except.error ae from ha)]
      exact ⟨rfl, rfl⟩
    · have := guardrails_ok_clean (by cases au; exact ha)
      simp_all
  · intro e he hmut
    rcases ha : assert_release_guardrails env guards with ae | au
    · unfold run_tag_release at he
      rw [effBind_error_fst
        (show ((assert_release_guardrails env guards), ([] : List Eff)).1
          = Except.error ae from ha)] at he
      simp at he
    · cases au
      rcases hp : (run_preflight env pre).1 with pe | pu
      · unfold run_tag_release at he
        rw [effBind_ok_fst
          (show ((assert_release_guardrails env guards), ([] : List Eff)).1
            = Except.ok () from ha)] at he
        rw [effBind_error_fst hp] at he
        simp only [List.nil_append] at he
        rw [run_preflight_trace he] at hmut
        exact Bool.noConfusion hmut
      · cases pu
        exact ⟨rfl, rfl⟩

/-- The all-green pipeline environment used by witnesses: every external call
succeeds, the tree is clean, the branch is `master`, and no tag collision is
reported. -/
def releaseEnvAllOk : ReleaseEnv :=
  { isRepo := true, remoteUrlOk := true, statusOk := true, statusStdout := ""
    branchOk := true, branchStdout := "master\n", fmtOk := true, clippyOk := true
    testOk := true, tomlUpdateOk := true, addOk := true, commitOk := true
    tagListOk := true, tagListStdout := "", lsRemoteOk := true, lsRemoteStdout := ""
    tagCreateOk := true, pushTagOk := true }

/-- The release plan `0.1.0 -> 0.2.0` used by witnesses. -/
def planW : ReleasePlan :=
  { old_version := "0.1.0", new_version := "0.2.0", tag := "v0.2.0" }

/-- Witness for C2: a dirty working tree aborts the pipeline with an empty
action trace, and on an all-green run the `Cargo.toml` write in the trace
certifies that guardrails and preflight passed. -/
theorem no_mutation_before_guardrails_and_preflight_witness :
    ((run_tag_release { releaseEnvAllOk with statusStdout := " M src/main.rs\n" }
        planW "msg" PreflightConfig.default ReleaseGuardrailConfig.default).1.isOk = false
      ∧ (run_tag_release { releaseEnvAllOk with statusStdout := " M src/main.rs\n" }
          planW "msg" PreflightConfig.default ReleaseGuardrailConfig.default).2 = [])
    ∧ (assert_release_guardrails releaseEnvAllOk ReleaseGuardrailConfig.default
        = Except.ok ()
      ∧ (run_preflight releaseEnvAllOk PreflightConfig.default).1 = Except.ok ()) :=
  ⟨(no_mutation_before_guardrails_and_preflight
      { releaseEnvAllOk with statusStdout := " M src/main.rs\n" }
      planW "msg" PreflightConfig.default ReleaseGuardrailConfig.default).1 rfl,
   (no_mutation_before_guardrails_and_preflight releaseEnvAllOk
      planW "msg" PreflightConfig.default ReleaseGuardrailConfig.default).2
      Eff.writeCargoToml (by decide) rfl⟩

/-- Being inside a git repository is necessary for the guardrails to pass. -/
theorem guardrails_ok_repo {env : ReleaseEnv} {cfg : ReleaseGuardrailConfig}
    (h : assert_release_guardrails env cfg = Except.ok ()) : env.isRepo = true := by
  unfold assert_release_guardrails at h
  rcases h1 : ensure_git_repo env with e1 | u1 <;> rw [h1] at h
  · exact Except.noConfusion h
  · unfold ensure_git_repo at h1
    cases hr : env.isRepo
    · rw [hr] at h1; simp at h1
    · rfl

/-- C3: the release tag is never created when a tag of the same name is
already present locally or on the configured remote: whenever the local
`git tag --list` query or the remote `git ls-remote` query would report the
tag present (non-empty trimmed output), `run_tag_release` returns an error
and its action trace contains no tag creation and no tag push. -/
theorem tag_never_created_on_collision :
    ∀ (env : ReleaseEnv) (plan : ReleasePlan) (msg : String)
      (pre : PreflightConfig) (guards : ReleaseGuardrailConfig),
      ((rust_trim env.tagListStdout).isEmpty = false
        ∨ (rust_trim env.lsRemoteStdout).isEmpty = false) →
      (run_tag_release env plan msg pre guards).1.isOk = false
      ∧ (∀ t, Eff.gitCreateTag t ∉ (run_tag_release env plan msg pre guards).2)
      ∧ (∀ rm t, Eff.gitPushTag rm t ∉ (run_tag_release env plan msg pre guards).2) := by
  intro env plan msg pre guards H
  rcases ha : assert_release_guardrails env guards with ae | au
  · unfold run_tag_release
    rw [effBind_error_fst
      (show ((assert_release_guardrails env guards), ([] : List Eff)).1
        = Except.error ae from ha)]
    refine ⟨rfl, ?_, ?_⟩ <;> simp
  · cases au
    have hrepo := guardrails_ok_repo ha
    have hremote := guardrails_ok_remote ha
    rcases hpr : run_preflight env pre with ⟨pres, ptr⟩
    have hnoCreatePtr : ∀ t, Eff.gitCreateTag t ∉ ptr := by
      intro t hh
      have := run_preflight_trace (e := Eff.gitCreateTag t) (by rw [hpr]; exact hh)
      simp [Eff.isMutation] at this
    have hnoPushPtr : ∀ rm t, Eff.gitPushTag rm t ∉ ptr := by
      intro rm t hh
      have := run_preflight_trace (e := Eff.gitPushTag rm t) (by rw [hpr]; exact hh)
      simp [Eff.isMutation] at this
    unfold run_tag_release
    rw [effBind_ok_fst
      (show ((assert_release_guardrails env guards), ([] : List Eff)).1
        = Except.ok () from ha), hpr]
    cases pres with
    | error pe =>
      simp only [effBind]
      exact ⟨rfl, fun t hm => by simp at hm; exact hnoCreatePtr t hm,
        fun rm t hm => by simp at hm; exact hnoPushPtr rm t hm⟩
    | ok pu =>
      cases pu
      cases ht : env.tomlUpdateOk with
      | false =>
        have e2 : apply_version_bump env
            = (Except.error "Failed to update version in Cargo.toml", []) := by
          simp [apply_version_bump, ht]
        rw [e2]
        simp only [effBind]
        refine ⟨rfl, fun t hm => ?_, fun rm t hm => ?_⟩ <;>
          simp [hnoCreatePtr, hnoPushPtr] at hm
      | true =>
        have e2 : apply_version_bump env
            = (Except.ok (), [Eff.writeCargoToml, Eff.generateLockfile]) := by
          simp [apply_version_bump, ht]
        rw [e2]
        cases hadd : env.addOk with
        | false =>
          have e3 : stage_all env = (Except.error "git add -A failed", [Eff.gitAddAll]) := by
            simp [stage_all, ensure_git_repo, hrepo, hadd]
          rw [e3]
          simp only [effBind]
          refine ⟨rfl, fun t hm => ?_, fun rm t hm => ?_⟩ <;>
            simp [hnoCreatePtr, hnoPushPtr] at hm
        | true =>
          have e3 : stage_all env = (Except.ok (), [Eff.gitAddAll]) := by
            simp [stage_all, ensure_git_repo, hrepo, hadd]
          rw [e3]
          cases hcommit : env.commitOk with
          | false =>
            have e4 : commit_with_message env msg
                = (Except.error "git commit failed", [Eff.gitCommit]) := by
              simp [commit_with_message, ensure_git_repo, hrepo, hcommit]
            rw [e4]
            simp only [effBind]
            refine ⟨rfl, fun t hm => ?_, fun rm t hm => ?_⟩ <;>
              simp [hnoCreatePtr, hnoPushPtr] at hm
          | true =>
            have e4 : commit_with_message env msg = (Except.ok (), [Eff.gitCommit]) := by
              simp [commit_with_message, ensure_git_repo, hrepo, hcommit]
            rw [e4]
            cases htg : (rust_trim plan.tag).isEmpty with
            | true =>
              have e5 : tag_exists_local env plan.tag = (Except.ok false, []) := by
                simp [tag_exists_local, ensure_git_repo, hrepo, htg]
              have e6 : tag_exists_remote env guards.remote plan.tag
                  = (Except.ok false, []) := by
                simp [tag_exists_remote, ensure_git_repo, hrepo, htg]
              have e7 : create_annotated_tag env plan.tag
                  = (Except.error "Tag cannot be empty.", []) := by
                simp [create_annotated_tag, ensure_git_repo, hrepo, htg]
              rw [e5, e6, e7]
              simp only [effBind]
              refine ⟨rfl, fun t hm => ?_, fun rm t hm => ?_⟩ <;>
                simp [hnoCreatePtr, hnoPushPtr] at hm
            | false =>
              cases htl : env.tagListOk with
              | false =>
                have e5 : tag_exists_local env plan.tag
                    = (Except.error "git tag --list failed", [Eff.queryTagLocal]) := by
                  simp [tag_exists_local, ensure_git_repo, hrepo, htg, htl]
                rw [e5]
                simp only [effBind]
                refine ⟨rfl, fun t hm => ?_, fun rm t hm => ?_⟩ <;>
                  simp [hnoCreatePtr, hnoPushPtr] at hm
              | true =>
                cases hls : (rust_trim env.tagListStdout).isEmpty with
                | false =>
                  have e5 : tag_exists_local env plan.tag
                      = (Except.ok true, [Eff.queryTagLocal]) := by
                    simp [tag_exists_local, ensure_git_repo, hrepo, htg, htl, hls]
                  rw [e5]
                  simp only [effBind]
                  refine ⟨rfl, fun t hm => ?_, fun rm t hm => ?_⟩ <;>
                    simp [hnoCreatePtr, hnoPushPtr] at hm
                | true =>
                  have hrs : (rust_trim env.lsRemoteStdout).isEmpty = false := by
                    rcases H with h | h
                    · rw [h] at hls; exact Bool.noConfusion hls
                    · exact h
                  have e5 : tag_exists_local env plan.tag
                      = (Except.ok false, [Eff.queryTagLocal]) := by
                    simp [tag_exists_local, ensure_git_repo, hrepo, htg, htl, hls]
                  rw [e5]
                  cases hlr : env.lsRemoteOk with
                  | false =>
                    have e6 : tag_exists_remote env guards.remote plan.tag
                        = (Except.error "git ls-remote failed", [Eff.queryTagRemote]) := by
                      simp [tag_exists_remote, ensure_git_repo, hrepo, hremote, htg, hlr]
                    rw [e6]
                    simp only [effBind]
                    refine ⟨rfl, fun t hm => ?_, fun rm t hm => ?_⟩ <;>
                      simp [hnoCreatePtr, hnoPushPtr] at hm
                  | true =>
                    have e6 : tag_exists_remote env guards.remote plan.tag
                        = (Except.ok true, [Eff.queryTagRemote]) := by
                      simp [tag_exists_remote, ensure_git_repo, hrepo, hremote, htg, hlr, hrs]
                    rw [e6]
                    simp only [effBind]
                    refine ⟨rfl, fun t hm => ?_, fun rm t hm => ?_⟩ <;>
                      simp [hnoCreatePtr, hnoPushPtr] at hm

/-- Witness for C3: an otherwise all-green release where the remote already
has the tag (`git ls-remote` prints a ref line). -/
theorem tag_never_created_on_collision_witness :
    (run_tag_release { releaseEnvAllOk with
        lsRemoteStdout := "abc123 refs/tags/v0.2.0\n" }
      planW "msg" PreflightConfig.default ReleaseGuardrailConfig.default).1.isOk = false
    ∧ Eff.gitCreateTag "v0.2.0" ∉
        (run_tag_release { releaseEnvAllOk with
            lsRemoteStdout := "abc123 refs/tags/v0.2.0\n" }
          planW "msg" PreflightConfig.default ReleaseGuardrailConfig.default).2 := by
  have h := tag_never_created_on_collision
    { releaseEnvAllOk with lsRemoteStdout := "abc123 refs/tags/v0.2.0\n" }
    planW "msg" PreflightConfig.default ReleaseGuardrailConfig.default
    (Or.inr (by decide))
  exact ⟨h.1, h.2.1 "v0.2.0"⟩

/-! ### Task-runner invariant (for C1 and C4) -/

theorem countCompleted_append (a b : List TaskEvent) :
    countCompleted (a ++ b) = countCompleted a + countCompleted b := by
  simp [countCompleted, List.filter_append]

theorem countCompleted_cons (e : TaskEvent) (q : List TaskEvent) :
    countCompleted (e :: q)
      = (if isCompletedEv e then 1 else 0) + countCompleted q := by
  simp only [countCompleted, List.filter_cons]
  split_ifs <;> simp [Nat.add_comm]

theorem countCompleted_zero_mem {q : List TaskEvent} (h : countCompleted q = 0)
    {e : TaskEvent} (he : e ∈ q) : isCompletedEv e = false := by
  induction q with
  | nil => cases he
  | cons x rest ih =>
    rw [countCompleted_cons] at h
    rcases List.mem_cons.mp he with rfl | hmem
    · cases hx : isCompletedEv e
      · rfl
      · rw [hx] at h; simp at h
    · exact ih (by omega) hmem

/-- The invariant holds in the initial state. -/
theorem runner_inv_init : RunnerInv RunnerState.init := by
  refine ⟨rfl, rfl, ?_, fun _ => rfl⟩
  intro e he
  simp [RunnerState.init] at he

/-- Every transition preserves the invariant. -/
theorem runner_inv_step (s : RunnerState) (app : App) (op : RunnerOp)
    (h : RunnerInv s) : RunnerInv (runner_step (s, app) op).1 := by
  obtain ⟨cur, q, wk, acc, capp⟩ := s
  obtain ⟨ha, hb, hc, he⟩ := h
  simp only [busyN, workerN, RunnerState.mk.injEq] at ha hb hc he ⊢
  cases op with
  | opStart kind label now work =>
    cases cur with
    | some t => exact ⟨ha, hb, hc, he⟩
    | none =>
      have hq : q = [] := he rfl
      subst hq
      show RunnerInv
        { current := some { label := label, started_at := now, spinner_index := 0 }
          queue := [TaskEvent.Started kind label now]
          worker := some work
          accepted := acc + 1
          completedApplied := capp }
      refine ⟨?_, ?_, ?_, ?_⟩
      · simp only [busyN]
        simp at ha ⊢
        omega
      · simp [busyN, workerN, countCompleted, isCompletedEv]
      · intro e hmem
        simp at hmem
      · intro hcontra
        exact Option.noConfusion hcontra
  | opProgress m =>
    cases wk with
    | none => exact ⟨ha, hb, hc, he⟩
    | some w =>
      cases cur with
      | none =>
        exfalso
        have hq := he rfl
        subst hq
        simp [busyN, workerN, countCompleted] at hb
      | some t =>
        have hcount : countCompleted q = 0 := by
          simp [busyN, workerN] at hb
          omega
        show RunnerInv
          { current := some t
            queue := q ++ [TaskEvent.Progress m]
            worker := some w
            accepted := acc
            completedApplied := capp }
        refine ⟨?_, ?_, ?_, ?_⟩
        · simp at ha ⊢
          simpa [busyN] using ha
        · rw [countCompleted_append, hcount]
          simp [countCompleted, isCompletedEv, busyN, workerN]
        · intro e hmem
          rw [List.dropLast_concat] at hmem
          exact countCompleted_zero_mem hcount hmem
        · intro hcontra
          exact Option.noConfusion hcontra
  | opFinish =>
    cases wk with
    | none => exact ⟨ha, hb, hc, he⟩
    | some w =>
      cases cur with
      | none =>
        exfalso
        have hq := he rfl
        subst hq
        simp [busyN, workerN, countCompleted] at hb
      | some t =>
        have hcount : countCompleted q = 0 := by
          simp [busyN, workerN] at hb
          omega
        show RunnerInv
          { current := some t
            queue := q ++ [TaskEvent.Completed (worker_outcome w)]
            worker := Option.none
            accepted := acc
            completedApplied := capp }
        refine ⟨?_, ?_, ?_, ?_⟩
        · simp at ha ⊢
          simpa [busyN] using ha
        · rw [countCompleted_append, hcount]
          simp [countCompleted, isCompletedEv, busyN, workerN]
        · intro e hmem
          rw [List.dropLast_concat] at hmem
          exact countCompleted_zero_mem hcount hmem
        · intro hcontra
          exact Option.noConfusion hcontra
  | opApply =>
    cases q with
    | nil => exact ⟨ha, hb, hc, he⟩
    | cons ev rest =>
      cases cur with
      | none => exact absurd (he rfl) (List.cons_ne_nil ev rest)
      | some t =>
        cases ev with
        | Started kind label tm =>
          have hcnt : countCompleted (TaskEvent.Started kind label tm :: rest)
              = countCompleted rest := by
            rw [countCompleted_cons]
            simp [isCompletedEv]
          rw [hcnt] at hb
          show RunnerInv
            { current := some { label := label, started_at := tm, spinner_index := 0 }
              queue := rest
              worker := wk
              accepted := acc
              completedApplied := capp }
          refine ⟨?_, ?_, ?_, ?_⟩
          · simp at ha ⊢
            simpa [busyN] using ha
          · simp at hb ⊢
            simpa [busyN, workerN] using hb
          · intro e hmem
            apply hc
            cases rest with
            | nil => simp at hmem
            | cons r1 rs =>
              rw [List.dropLast_cons₂]
              exact List.mem_cons_of_mem _ hmem
          · intro hcontra
            exact Option.noConfusion hcontra
        | Progress m =>
          have hcnt : countCompleted (TaskEvent.Progress m :: rest)
              = countCompleted rest := by
            rw [countCompleted_cons]
            simp [isCompletedEv]
          rw [hcnt] at hb
          show RunnerInv
            { current := some t
              queue := rest
              worker := wk
              accepted := acc
              completedApplied := capp }
          refine ⟨ha, hb, ?_, ?_⟩
          · intro e hmem
            apply hc
            cases rest with
            | nil => simp at hmem
            | cons r1 rs =>
              rw [List.dropLast_cons₂]
              exact List.mem_cons_of_mem _ hmem
          · intro hcontra
            exact Option.noConfusion hcontra
        | Completed r =>
          have hrest : rest = [] := by
            cases rest with
            | nil => rfl
            | cons r1 rs =>
              exfalso
              have hmm : TaskEvent.Completed r ∈
                  (TaskEvent.Completed r :: r1 :: rs).dropLast := by
                rw [List.dropLast_cons₂]
                exact List.mem_cons_self _ _
              have := hc _ hmm
              simp [isCompletedEv] at this
          subst hrest
          cases wk with
          | some w =>
            exfalso
            simp [busyN, workerN, countCompleted, isCompletedEv] at hb
          | none =>
            show RunnerInv
              { current := Option.none
                queue := []
                worker := Option.none
                accepted := acc
                completedApplied := capp + 1 }
            refine ⟨?_, ?_, ?_, ?_⟩
            · simp [busyN, countCompleted, isCompletedEv] at ha hb ⊢
              omega
            · simp [busyN, workerN, countCompleted]
            · intro e hmem
              simp at hmem
            · intro _
              rfl

/-- The invariant holds along every run. -/
theorem runner_inv_foldl (ops : List RunnerOp) (s : RunnerState) (app : App)
    (h : RunnerInv s) : RunnerInv (ops.foldl runner_step (s, app)).1 := by
  induction ops generalizing s app with
  | nil => exact h
  | cons op rest ih =>
    simp only [List.foldl_cons]
    have hstep := runner_inv_step s app op h
    rcases hst : runner_step (s, app) op with ⟨s2, app2⟩
    rw [hst] at hstep
    exact ih s2 app2 hstep

/-- The invariant holds in every reachable state. -/
theorem runner_inv_run (ops : List RunnerOp) : RunnerInv (runner_run ops).1 :=
  runner_inv_foldl ops RunnerState.init App.new runner_inv_init

/-- C1: single-flight discipline of the task runner.  Along every sequence of
transitions at most one accepted task is unfinished
(`accepted ≤ completedApplied + 1`); whenever the runner is busy a further
`start` returns `false` and leaves the whole runner state (current task,
event queue, pending worker) unchanged; when idle, `start` returns `true` and
marks the runner busy. -/
theorem single_flight_start :
    ∀ (ops : List RunnerOp) (kind : TaskKind) (label : String) (now : Nat)
      (work : Except String TaskResult),
      ((runner_run ops).1.accepted ≤ (runner_run ops).1.completedApplied + 1)
      ∧ ((runner_run ops).1.is_busy = true →
          runner_start (runner_run ops).1 kind label now work = (false, (runner_run ops).1))
      ∧ ((runner_run ops).1.is_busy = false →
          (runner_start (runner_run ops).1 kind label now work).1 = true
          ∧ ((runner_start (runner_run ops).1 kind label now work).2).is_busy = true) := by
  intro ops kind label now work
  obtain ⟨ha, hb, hc, he⟩ := runner_inv_run ops
  refine ⟨?_, ?_, ?_⟩
  · rw [ha]
    unfold busyN
    split_ifs <;> omega
  · intro hbusy
    unfold RunnerState.is_busy at hbusy
    simp [runner_start, hbusy]
  · intro hidle
    unfold RunnerState.is_busy at hidle
    constructor
    · simp [runner_start, hidle]
    · simp [runner_start, hidle, RunnerState.is_busy]

/-- Witness for C1: after one accepted `start` the runner is busy and a
second `start` is rejected without changing the state; from idle the first
`start` was accepted. -/
theorem single_flight_start_witness :
    ((runner_run [RunnerOp.opStart TaskKind.StageAll "Staging all changes…" 0
        (Except.ok (TaskResult.OkMessage "Staged all changes." Option.none))]).1.accepted
      ≤ (runner_run [RunnerOp.opStart TaskKind.StageAll "Staging all changes…" 0
        (Except.ok (TaskResult.OkMessage "Staged all changes." Option.none))]).1.completedApplied
          + 1)
    ∧ runner_start
        (runner_run [RunnerOp.opStart TaskKind.StageAll "Staging all changes…" 0
          (Except.ok (TaskResult.OkMessage "Staged all changes." Option.none))]).1
        TaskKind.PushBranch "Pushing branch…" 1
        (Except.ok (TaskResult.OkMessage "Branch pushed." Option.none))
      = (false,
          (runner_run [RunnerOp.opStart TaskKind.StageAll "Staging all changes…" 0
            (Except.ok (TaskResult.OkMessage "Staged all changes." Option.none))]).1)
    ∧ (runner_start (runner_run []).1 TaskKind.StageAll "Staging all changes…" 0
        (Except.ok (TaskResult.OkMessage "Staged all changes." Option.none))).1 = true := by
  refine ⟨?_, ?_, ?_⟩
  · exact (single_flight_start [RunnerOp.opStart TaskKind.StageAll "Staging all changes…" 0
      (Except.ok (TaskResult.OkMessage "Staged all changes." Option.none))]
      TaskKind.PushBranch "Pushing branch…" 1
      (Except.ok (TaskResult.OkMessage "Branch pushed." Option.none))).1
  · exact (single_flight_start [RunnerOp.opStart TaskKind.StageAll "Staging all changes…" 0
      (Except.ok (TaskResult.OkMessage "Staged all changes." Option.none))]
      TaskKind.PushBranch "Pushing branch…" 1
      (Except.ok (TaskResult.OkMessage "Branch pushed." Option.none))).2.1 rfl
  · exact ((single_flight_start [] TaskKind.StageAll "Staging all changes…" 0
      (Except.ok (TaskResult.OkMessage "Staged all changes." Option.none))).2.2 rfl).1

/-- C4: exactly one `Completed` event per accepted `start`.  In every
reachable state, applied completions plus queued completions plus the
pending worker account exactly for all accepted starts (so no second
`Completed` can ever exist for the same start, and at most one completion is
ever outstanding); a failing work closure is converted at the worker
boundary into `TaskResult.Error` carrying the error message rather than a
crash, and when the pending worker finishes it enqueues exactly one
`Completed` event with the converted result, balancing the count. -/
theorem exactly_one_completed_per_start :
    ∀ ops : List RunnerOp,
      ((runner_run ops).1.completedApplied + countCompleted (runner_run ops).1.queue
          + workerN (runner_run ops).1 = (runner_run ops).1.accepted)
      ∧ countCompleted (runner_run ops).1.queue ≤ 1
      ∧ (∀ msg : String, worker_outcome (Except.error msg) = TaskResult.Error msg)
      ∧ (∀ r : TaskResult, worker_outcome (Except.ok r) = r)
      ∧ (∀ w, (runner_run ops).1.worker = some w →
          (worker_finish (runner_run ops).1).queue
            = (runner_run ops).1.queue ++ [TaskEvent.Completed (worker_outcome w)]
          ∧ (worker_finish (runner_run ops).1).completedApplied
              + countCompleted (worker_finish (runner_run ops).1).queue
            = (runner_run ops).1.accepted) := by
  intro ops
  obtain ⟨ha, hb, hc, he⟩ := runner_inv_run ops
  have hbusy1 : busyN (runner_run ops).1 ≤ 1 := by
    unfold busyN
    split_ifs <;> omega
  refine ⟨by omega, by omega, fun msg => rfl, fun r => rfl, ?_⟩
  intro w hw
  have hq : (worker_finish (runner_run ops).1).queue
      = (runner_run ops).1.queue ++ [TaskEvent.Completed (worker_outcome w)] := by
    unfold worker_finish
    rw [hw]
  have happ : (worker_finish (runner_run ops).1).completedApplied
      = (runner_run ops).1.completedApplied := by
    unfold worker_finish
    rw [hw]
  have hwn : workerN (runner_run ops).1 = 1 := by
    simp [workerN, hw]
  refine ⟨hq, ?_⟩
  have h1 : countCompleted [TaskEvent.Completed (worker_outcome w)] = 1 := rfl
  rw [hq, happ, countCompleted_append, h1]
  omega

/-- Witness for C4: a single accepted `start` whose work fails with message
`boom`; when the worker finishes, the queue holds exactly the `Started` event
and one `Completed` carrying `TaskResult.Error "boom"`. -/
theorem exactly_one_completed_per_start_witness :
    worker_outcome (Except.error "boom") = TaskResult.Error "boom"
    ∧ (worker_finish (runner_run [RunnerOp.opStart TaskKind.CommitFromEditor "Committing…" 0
        (Except.error "boom")]).1).queue
      = (runner_run [RunnerOp.opStart TaskKind.CommitFromEditor "Committing…" 0
          (Except.error "boom")]).1.queue
        ++ [TaskEvent.Completed (worker_outcome (Except.error "boom"))] := by
  refine ⟨(exactly_one_completed_per_start []).2.2.1 "boom", ?_⟩
  exact ((exactly_one_completed_per_start
    [RunnerOp.opStart TaskKind.CommitFromEditor "Committing…" 0
      (Except.error "boom")]).2.2.2.2 (Except.error "boom") rfl).1

end GitWiz
